import Mathlib

/-!
# Verification of the pinch/pan gesture recognizer

A shallow embedding of `src/lib/gestures/pinch-pan-gesture.ts`:
the geometry module (`computeMetrics`), the contact registry
(an insertion-ordered map from pointer id to position, as a JS `Map`),
the per-attachment gesture session state, the snapshot emitter (`emit`),
and the four lifecycle handlers (`onPointerDown`, `onPointerMove`,
`endLike` for pointerup/pointercancel), together with the attach/detach
boundary.

Coordinates are modelled as real numbers; `Math.hypot` becomes
`Real.sqrt (dx^2 + dy^2)` and `Math.atan2 y x` becomes
`Complex.arg ⟨x, y⟩` (both have range `(-π, π]` on reals, where there is
no signed zero).  The `timestamp` field (`performance.now()`) is wall
clock time and is not modelled; no claim mentions it.
-/

/-- A 2D point in client coordinates (`GesturePoint` / `MutablePoint`). -/
structure Point where
  x : ℝ
  y : ℝ

/-- `Math.atan2 y x`, via the argument of the complex number `x + y*I`.
Range `(-π, π]`. -/
noncomputable def atan2 (y x : ℝ) : ℝ := Complex.arg ⟨x, y⟩

/-- Result of the geometry module (`Metrics` in the source): center plus
optional pairwise distance and bearing angle, present only with ≥ 2 points. -/
structure Metrics where
  center : Point
  distance : Option ℝ := none
  angleRad : Option ℝ := none

/-- `clampPointersCount`: report 0, 1 or 2 pointers, clamping counts above 2. -/
def clampPointersCount (count : Nat) : Nat :=
  if count ≤ 0 then 0
  else if count = 1 then 1
  else 2

/-- `computeMetrics`: center of 0/1/2 points, and for ≥ 2 points the
distance `Math.hypot dx dy` and angle `Math.atan2 dy dx` of the first two
points in registry order. -/
noncomputable def computeMetrics (points : List Point) : Metrics :=
  match points with
  | [] => { center := ⟨0, 0⟩ }
  | [p] => { center := ⟨p.x, p.y⟩ }
  | a :: b :: _ =>
      let cx := (a.x + b.x) / 2
      let cy := (a.y + b.y) / 2
      let dx := b.x - a.x
      let dy := b.y - a.y
      { center := ⟨cx, cy⟩
        distance := some (Real.sqrt (dx ^ 2 + dy ^ 2))
        angleRad := some (atan2 dy dx) }

/-! ## Contact registry

A JS `Map` keyed by pointer id: insertion-ordered; `set` on a present key
updates in place, otherwise appends; `delete` removes; `values()` iterates
in insertion order. -/

/-- The live contact registry (`pointers : Map<number, MutablePoint>`). -/
abbrev Registry := List (Nat × Point)

/-- `pointers.has(id)`. -/
def regHas : Registry → Nat → Bool
  | [], _ => false
  | e :: t, id => e.1 == id || regHas t id

/-- `pointers.set(id, p)`: update in place when the key is present
(keeping its position in insertion order), else append at the end. -/
def regSet : Registry → Nat → Point → Registry
  | [], id, p => [(id, p)]
  | e :: t, id, p => if e.1 == id then (id, p) :: t else e :: regSet t id p

/-- `pointers.delete(id)`. -/
def regDelete (m : Registry) (id : Nat) : Registry :=
  m.filter (fun e => e.1 != id)

/-- `pointers.get(id)`. -/
def regGet : Registry → Nat → Option Point
  | [], _ => none
  | e :: t, id => if e.1 == id then some e.2 else regGet t id

/-- `getActivePoints()`: `Array.from(pointers.values())`. -/
def activePoints (m : Registry) : List Point := m.map (·.2)

/-! ## Gesture session state -/

/-- The closure-held mutable state of one attachment. -/
structure GestureState where
  pointers : Registry
  active : Bool
  gestureStartCenter : Option Point
  gestureStartDistance : Option ℝ
  gestureStartAngleRad : Option ℝ
  lastCenter : Option Point
  translation : Point

/-- `"start" | "move" | "end" | "cancel"` (`end` is a Lean keyword, hence `end_`). -/
inductive Phase where
  | start
  | move
  | end_
  | cancel
deriving DecidableEq

/-- One emitted `PinchPanGestureSnapshot` (without the wall-clock `timestamp`). -/
structure Snapshot where
  phase : Phase
  pointers : Nat
  center : Point
  delta : Point
  translation : Point
  pinchDistance : Option ℝ
  scale : ℝ
  rotationRad : ℝ

/-- `resetGestureState()`. -/
def resetGestureState (s : GestureState) : GestureState :=
  { s with gestureStartCenter := none, gestureStartDistance := none,
           gestureStartAngleRad := none, lastCenter := none, translation := ⟨0, 0⟩ }

/-- `emit(phase, metrics)`: build one snapshot against the session anchors,
lazily capturing the pinch anchors the first time a distance/angle is
available, and updating `lastCenter`/`translation`.  The JS truthiness
test `gestureStartDistance && gestureStartDistance > 0` is the
conjunction `g ≠ 0 ∧ 0 < g`. -/
noncomputable def emit (phase : Phase) (metrics : Metrics) (s : GestureState) :
    GestureState × Snapshot :=
  let center := metrics.center
  let lastCenter0 := s.lastCenter.getD center
  let gestureStartCenter0 := s.gestureStartCenter.getD center
  let delta : Point := ⟨center.x - lastCenter0.x, center.y - lastCenter0.y⟩
  let translation : Point :=
    ⟨center.x - gestureStartCenter0.x, center.y - gestureStartCenter0.y⟩
  let hasPinch := metrics.distance.isSome
  let gsd : Option ℝ :=
    if hasPinch && s.gestureStartDistance.isNone then some (metrics.distance.getD 0)
    else s.gestureStartDistance
  let gsa : Option ℝ :=
    if hasPinch && s.gestureStartAngleRad.isNone then some (metrics.angleRad.getD 0)
    else s.gestureStartAngleRad
  let scale : ℝ :=
    if hasPinch then
      match gsd with
      | some g => if g ≠ 0 ∧ 0 < g then metrics.distance.getD g / g else 1
      | none => 1
    else 1
  let rotationRad : ℝ :=
    if hasPinch then
      match gsa, metrics.angleRad with
      | some g, some a => a - g
      | _, _ => 0
    else 0
  let snapshot : Snapshot :=
    { phase := phase
      pointers := clampPointersCount s.pointers.length
      center := center
      delta := delta
      translation := translation
      pinchDistance := metrics.distance
      scale := scale
      rotationRad := rotationRad }
  ({ s with gestureStartCenter := some gestureStartCenter0
            gestureStartDistance := gsd
            gestureStartAngleRad := gsa
            lastCenter := some center
            translation := translation },
   snapshot)

/-! ## Lifecycle handlers -/

/-- The input modality tag (`PointerEvent.pointerType`); `other` stands for
any value outside the allow-list (e.g. the empty string). -/
inductive PointerType where
  | touch
  | pen
  | mouse
  | other
deriving DecidableEq

/-- The parts of a DOM `PointerEvent` the recognizer reads. -/
structure PointerEvent where
  pointerId : Nat
  clientX : ℝ
  clientY : ℝ
  pointerType : PointerType

/-- `onPointerDown`: track allow-listed modalities, activate the session,
and (re)anchor + emit `start` when the registry size is 1 or 2.
`preventDefault`/`setPointerCapture` touch no recognizer state. -/
noncomputable def onPointerDown (e : PointerEvent) (s : GestureState) :
    GestureState × List Snapshot :=
  let pointers :=
    if e.pointerType = .touch ∨ e.pointerType = .pen ∨ e.pointerType = .mouse then
      regSet s.pointers e.pointerId ⟨e.clientX, e.clientY⟩
    else s.pointers
  let s := { s with pointers := pointers }
  let metrics := computeMetrics (activePoints s.pointers)
  let s := if !s.active then resetGestureState { s with active := true } else s
  if s.pointers.length = 1 ∨ s.pointers.length = 2 then
    let s := { s with gestureStartCenter := some ⟨metrics.center.x, metrics.center.y⟩
                      lastCenter := some ⟨metrics.center.x, metrics.center.y⟩
                      translation := ⟨0, 0⟩
                      gestureStartDistance := metrics.distance
                      gestureStartAngleRad := metrics.angleRad }
    let r := emit .start metrics s
    (r.1, [r.2])
  else (s, [])

/-- `onPointerMove`: ignore untracked ids, update the stored position, and
emit `move` only for 1- or 2-pointer states. -/
noncomputable def onPointerMove (e : PointerEvent) (s : GestureState) :
    GestureState × List Snapshot :=
  if !(regHas s.pointers e.pointerId) then (s, [])
  else
    let s := { s with pointers := regSet s.pointers e.pointerId ⟨e.clientX, e.clientY⟩ }
    let metrics := computeMetrics (activePoints s.pointers)
    if !s.active then (s, [])
    else if s.pointers.length = 1 ∨ s.pointers.length = 2 then
      let r := emit .move metrics s
      (r.1, [r.2])
    else (s, [])

/-- `endLike(phase)`: ignore untracked ids, remove the contact, emit
`end`/`cancel` over the remaining geometry (or the last known center),
then rebase + emit a synthetic `start` when 1 or 2 contacts remain, or
reset to Idle when none remain. -/
noncomputable def endLike (phase : Phase) (e : PointerEvent) (s : GestureState) :
    GestureState × List Snapshot :=
  if !(regHas s.pointers e.pointerId) then (s, [])
  else
    let s := { s with pointers := regDelete s.pointers e.pointerId }
    let remaining := activePoints s.pointers
    let metrics : Metrics :=
      if remaining.length > 0 then computeMetrics remaining
      else { center := s.lastCenter.getD ⟨e.clientX, e.clientY⟩ }
    let r := emit phase metrics s
    let s := r.1
    if s.pointers.length = 1 ∨ s.pointers.length = 2 then
      let m := computeMetrics (activePoints s.pointers)
      let s := { s with gestureStartCenter := some ⟨m.center.x, m.center.y⟩
                        lastCenter := some ⟨m.center.x, m.center.y⟩
                        translation := ⟨0, 0⟩
                        gestureStartDistance := m.distance
                        gestureStartAngleRad := m.angleRad }
      let r2 := emit .start m s
      (r2.1, [r.2, r2.2])
    else if s.pointers.length = 0 then
      (resetGestureState { s with active := false }, [r.2])
    else (s, [r.2])

/-! ## Notification sequences -/

/-- One lifecycle notification delivered to the attachment. -/
inductive Event where
  | down (e : PointerEvent)
  | move (e : PointerEvent)
  | up (e : PointerEvent)
  | cancel (e : PointerEvent)

/-- Dispatch one notification to its handler (`pointerup`/`pointercancel`
are `endLike "end"` / `endLike "cancel"`). -/
noncomputable def step (ev : Event) (s : GestureState) : GestureState × List Snapshot :=
  match ev with
  | .down e => onPointerDown e s
  | .move e => onPointerMove e s
  | .up e => endLike .end_ e s
  | .cancel e => endLike .cancel e s

/-- The state of a fresh attachment: empty registry, inactive session. -/
def initState : GestureState :=
  { pointers := [], active := false, gestureStartCenter := none,
    gestureStartDistance := none, gestureStartAngleRad := none,
    lastCenter := none, translation := ⟨0, 0⟩ }

/-- Process a notification sequence from a given state, collecting every
emitted snapshot in order. -/
noncomputable def processFrom (s : GestureState) : List Event → GestureState × List Snapshot
  | [] => (s, [])
  | e :: es =>
      let r := step e s
      let r2 := processFrom r.1 es
      (r2.1, r.2 ++ r2.2)

/-- Process a notification sequence on a freshly attached recognizer. -/
noncomputable def runEvents (events : List Event) : GestureState × List Snapshot :=
  processFrom initState events

/-! ## Sequences with at most one live contact (C2) -/

/-- At most one contact is live at any point along a notification
sequence: after each processed event the registry holds at most one
entry. -/
def atMostOneLive : GestureState → List Event → Prop
  | _, [] => True
  | s, e :: es => (step e s).1.pointers.length ≤ 1 ∧ atMostOneLive (step e s).1 es

/-! ## The attach/detach boundary

`attachPinchPanGesture` also manipulates the DOM: it reads and writes
`target.style.touchAction` and registers/removes the four pointer
listeners.  An element is modelled by the parts the function touches; a
missing (`null`) target is `none`, and a property access on it throws a
`TypeError` (JS semantics), which the source does not guard against. -/

/-- The style record of a target element; an unset `touch-action` is the
empty string. -/
structure Styles where
  touchAction : String

/-- A target element: its style and the listener registrations made on it. -/
structure Elem where
  style : Styles
  listeners : List String

/-- One recognizer attachment: whether its four listeners are currently
registered, and its closure-held session state. -/
structure Attachment where
  attached : Bool
  state : GestureState

/-- `attachPinchPanGesture(target, handlers, options)` at the DOM boundary.
The source reads `target.style.touchAction` and calls
`target.addEventListener` unconditionally, so a missing target makes the
property access throw a `TypeError`; on a present target it sets the
default `touch-action` style unless already set, registers the four
pointer listeners, and yields a fresh attachment. -/
noncomputable def attachPinchPanGesture : Option Elem → Except String (Elem × Attachment)
  | none => .error "TypeError"
  | some t =>
      let t :=
        if t.style.touchAction = "" then { t with style := { touchAction := "none" } }
        else t
      let t := { t with listeners :=
        t.listeners ++ ["pointerdown", "pointermove", "pointerup", "pointercancel"] }
      .ok (t, { attached := true, state := initState })

/-- The detach closure returned by attach: `removeEventListener` for all
four listeners, `pointers.clear()`, `active = false`,
`resetGestureState()` — i.e. back to the fresh-attachment state.  It is a
total function: it never throws. -/
def detachFn (_ : Attachment) : Attachment :=
  { attached := false, state := initState }

/-- Deliver one notification to an attachment: when its listeners are
registered the matching handler runs, otherwise nothing is invoked. -/
noncomputable def deliver (ev : Event) (a : Attachment) : Attachment × List Snapshot :=
  if a.attached then
    let r := step ev a.state
    ({ a with state := r.1 }, r.2)
  else (a, [])

/-- Deliver a notification sequence to an attachment, collecting every
snapshot passed to a handler. -/
noncomputable def deliverAll (a : Attachment) : List Event → Attachment × List Snapshot
  | [] => (a, [])
  | e :: es =>
      let r := deliver e a
      let r2 := deliverAll r.1 es
      (r2.1, r.2 ++ r2.2)

/-! ## Two independent attachments (for the cross-instance property)

A world of two attachments on distinct targets; each notification is
addressed to one of them (`false` = first instance, `true` = second). -/

/-- Dispatch one addressed notification to the addressed instance only. -/
noncomputable def stepWorld (te : Bool × Event) (w : GestureState × GestureState) :
    (GestureState × GestureState) × List (Bool × Snapshot) :=
  match te.1 with
  | false =>
      let r := step te.2 w.1
      ((r.1, w.2), r.2.map (fun sn => (false, sn)))
  | true =>
      let r := step te.2 w.2
      ((w.1, r.1), r.2.map (fun sn => (true, sn)))

/-- Run an interleaved addressed trace over a two-instance world. -/
noncomputable def runWorld (w : GestureState × GestureState) :
    List (Bool × Event) → (GestureState × GestureState) × List (Bool × Snapshot)
  | [] => (w, [])
  | te :: tr =>
      let r := stepWorld te w
      let r2 := runWorld r.1 tr
      (r2.1, r.2 ++ r2.2)

/-- The sub-sequence of an addressed trace delivered to instance `i`. -/
def eventsFor (i : Bool) (tr : List (Bool × Event)) : List Event :=
  tr.filterMap (fun te => if te.1 = i then some te.2 else none)

/-- The sub-sequence of addressed snapshots emitted by instance `i`. -/
def outFor (i : Bool) (out : List (Bool × Snapshot)) : List Snapshot :=
  out.filterMap (fun ts => if ts.1 = i then some ts.2 else none)

/-! ## Helper lemmas -/

theorem regSet_length_of_has (m : Registry) (id : Nat) (p : Point)
    (h : regHas m id = true) : (regSet m id p).length = m.length := by
  induction m with
  | nil => simp [regHas] at h
  | cons e t ih =>
      by_cases he : e.1 = id
      · simp [regSet, he]
      · have h' : regHas t id = true := by simpa [regHas, he] using h
        simp [regSet, he, ih h']

theorem regGet_regSet_self (m : Registry) (id : Nat) (p : Point) :
    regGet (regSet m id p) id = some p := by
  induction m with
  | nil => simp [regSet, regGet]
  | cons e t ih =>
      by_cases he : e.1 = id
      · simp [regSet, regGet, he]
      · simp [regSet, regGet, he, ih]

theorem regGet_regSet_other (m : Registry) (id id' : Nat) (p : Point)
    (hne : id' ≠ id) : regGet (regSet m id p) id' = regGet m id' := by
  induction m with
  | nil => simp [regSet, regGet, Ne.symm hne]
  | cons e t ih =>
      by_cases he : e.1 = id
      · have h2 : e.1 ≠ id' := by rw [he]; exact Ne.symm hne
        simp [regSet, regGet, he, Ne.symm hne, h2]
      · by_cases hb : e.1 = id'
        · simp [regSet, regGet, he, hb, hne]
        · simp [regSet, regGet, he, hb, ih]

theorem emit_fst_pointers (ph : Phase) (m : Metrics) (s : GestureState) :
    (emit ph m s).1.pointers = s.pointers := rfl

theorem emit_fst_active (ph : Phase) (m : Metrics) (s : GestureState) :
    (emit ph m s).1.active = s.active := rfl

theorem computeMetrics_distance_none (pts : List Point) (h : pts.length ≤ 1) :
    (computeMetrics pts).distance = none := by
  match pts with
  | [] => rfl
  | [p] => rfl
  | a :: b :: t => simp at h

theorem emit_no_pinch (ph : Phase) (m : Metrics) (s : GestureState)
    (h : m.distance = none) :
    (emit ph m s).2.scale = 1 ∧ (emit ph m s).2.rotationRad = 0 := by
  simp [emit, h]

/-- C1: geometry of 0, 1 or 2 ordered contact points: origin center with
undefined distance/angle for 0 points; the point itself for 1 point; and
for two points the midpoint, the Euclidean norm of `B − A` (stated as the
modulus of the complex vector) and `atan2(B.y − A.y, B.x − A.x)` (stated
as the complex argument, whose range is `(-π, π]`).  Totality and purity
hold by construction: `computeMetrics` is a total Lean function. -/
theorem computeMetrics_geometry (a b : Point) :
    computeMetrics [] = { center := ⟨0, 0⟩, distance := none, angleRad := none } ∧
    computeMetrics [a] = { center := a, distance := none, angleRad := none } ∧
    (computeMetrics [a, b]).center = ⟨(a.x + b.x) / 2, (a.y + b.y) / 2⟩ ∧
    (computeMetrics [a, b]).distance = some (Complex.abs ⟨b.x - a.x, b.y - a.y⟩) ∧
    (computeMetrics [a, b]).angleRad = some (Complex.arg ⟨b.x - a.x, b.y - a.y⟩) ∧
    (computeMetrics [a, b]).angleRad.getD 0 ∈ Set.Ioc (-Real.pi) Real.pi := by
  refine ⟨rfl, rfl, rfl, ?_, rfl, ?_⟩
  · show some (Real.sqrt ((b.x - a.x) ^ 2 + (b.y - a.y) ^ 2)) = _
    rw [Complex.abs_apply, Complex.normSq_mk]
    congr 2
    ring
  · show atan2 (b.y - a.y) (b.x - a.x) ∈ _
    exact Complex.arg_mem_Ioc _

theorem onPointerDown_no_pinch (e : PointerEvent) (s : GestureState)
    (h : (onPointerDown e s).1.pointers.length ≤ 1) :
    ∀ snap ∈ (onPointerDown e s).2, snap.scale = 1 ∧ snap.rotationRad = 0 := by
  intro snap hsnap
  simp only [onPointerDown] at h hsnap
  split_ifs at h hsnap <;>
  simp only [List.mem_singleton, List.not_mem_nil] at hsnap <;>
  first
    | exact hsnap.elim
    | (subst hsnap
       refine emit_no_pinch _ _ _ (computeMetrics_distance_none _ ?_)
       simp only [emit_fst_pointers, resetGestureState] at h
       simpa [activePoints] using h)

theorem onPointerMove_no_pinch (e : PointerEvent) (s : GestureState)
    (h : (onPointerMove e s).1.pointers.length ≤ 1) :
    ∀ snap ∈ (onPointerMove e s).2, snap.scale = 1 ∧ snap.rotationRad = 0 := by
  intro snap hsnap
  simp only [onPointerMove] at h hsnap
  split_ifs at h hsnap <;>
  simp only [List.mem_singleton, List.not_mem_nil] at hsnap <;>
  first
    | exact hsnap.elim
    | (subst hsnap
       refine emit_no_pinch _ _ _ (computeMetrics_distance_none _ ?_)
       simp only [emit_fst_pointers] at h
       simpa [activePoints] using h)

theorem endLike_no_pinch (ph : Phase) (e : PointerEvent) (s : GestureState)
    (h : (endLike ph e s).1.pointers.length ≤ 1) :
    ∀ snap ∈ (endLike ph e s).2, snap.scale = 1 ∧ snap.rotationRad = 0 := by
  intro snap hsnap
  simp only [endLike] at h hsnap
  split_ifs at h hsnap <;>
  simp only [List.mem_singleton, List.mem_cons, List.not_mem_nil, or_false] at hsnap <;>
  simp only [emit_fst_pointers, resetGestureState] at h <;>
  first
    | exact hsnap.elim
    | (rcases hsnap with hsnap | hsnap <;>
       subst hsnap <;>
       refine emit_no_pinch _ _ _ ?_ <;>
       first
        | rfl
        | (refine computeMetrics_distance_none _ ?_
           simpa [activePoints] using h))
    | (subst hsnap
       refine emit_no_pinch _ _ _ ?_
       first
        | rfl
        | (refine computeMetrics_distance_none _ ?_
           simpa [activePoints] using h))

theorem step_no_pinch (ev : Event) (s : GestureState)
    (h : (step ev s).1.pointers.length ≤ 1) :
    ∀ snap ∈ (step ev s).2, snap.scale = 1 ∧ snap.rotationRad = 0 := by
  cases ev with
  | down e => exact onPointerDown_no_pinch e s h
  | move e => exact onPointerMove_no_pinch e s h
  | up e => exact endLike_no_pinch .end_ e s h
  | cancel e => exact endLike_no_pinch .cancel e s h

theorem processFrom_no_pinch (events : List Event) :
    ∀ s : GestureState, atMostOneLive s events →
      ∀ snap ∈ (processFrom s events).2, snap.scale = 1 ∧ snap.rotationRad = 0 := by
  induction events with
  | nil => intro s _ snap hsnap; simp [processFrom] at hsnap
  | cons e es ih =>
      intro s hlive snap hsnap
      simp only [processFrom, List.mem_append] at hsnap
      rcases hsnap with hmem | hmem
      · exact step_no_pinch e s hlive.1 snap hmem
      · exact ih _ hlive.2 snap hmem

/-- C2: along any notification sequence during which at most one contact
is ever live, every emitted snapshot has `scale = 1` and `rotation = 0`. -/
theorem single_contact_unit_scale_zero_rotation (events : List Event)
    (h : atMostOneLive initState events) :
    ∀ snap ∈ (runEvents events).2, snap.scale = 1 ∧ snap.rotationRad = 0 :=
  processFrom_no_pinch events initState h

/-- Witness for C2 at a concrete one-contact sequence. -/
theorem single_contact_unit_scale_zero_rotation_witness :
    atMostOneLive initState [Event.down ⟨0, 5, 7, PointerType.touch⟩] ∧
    ∀ snap ∈ (runEvents [Event.down ⟨0, 5, 7, PointerType.touch⟩]).2,
      snap.scale = 1 ∧ snap.rotationRad = 0 := by
  have h : atMostOneLive initState [Event.down ⟨0, 5, 7, PointerType.touch⟩] := by
    simp [atMostOneLive, step, onPointerDown, initState, resetGestureState,
      regSet, activePoints, computeMetrics, emit_fst_pointers]
  exact ⟨h, single_contact_unit_scale_zero_rotation _ h⟩

/-- C10: with more than two live contacts, a move notification for any
tracked contact (including one of the geometry-defining first two)
updates that contact's stored position — and no other entry — but emits
no snapshot. -/
theorem move_beyond_two_contacts (e : PointerEvent) (s : GestureState)
    (hmore : 2 < s.pointers.length) (htr : regHas s.pointers e.pointerId = true) :
    (onPointerMove e s).1 =
      { s with pointers := regSet s.pointers e.pointerId ⟨e.clientX, e.clientY⟩ } ∧
    regGet (onPointerMove e s).1.pointers e.pointerId = some ⟨e.clientX, e.clientY⟩ ∧
    (∀ id, id ≠ e.pointerId →
      regGet (onPointerMove e s).1.pointers id = regGet s.pointers id) ∧
    (onPointerMove e s).2 = [] := by
  have hlen : (regSet s.pointers e.pointerId ⟨e.clientX, e.clientY⟩).length
      = s.pointers.length := regSet_length_of_has _ _ _ htr
  have hcond : ¬ ((regSet s.pointers e.pointerId ⟨e.clientX, e.clientY⟩).length = 1 ∨
      (regSet s.pointers e.pointerId ⟨e.clientX, e.clientY⟩).length = 2) := by
    rw [hlen]; omega
  have hres : onPointerMove e s =
      ({ s with pointers := regSet s.pointers e.pointerId ⟨e.clientX, e.clientY⟩ }, []) := by
    simp [onPointerMove, htr, hcond]
  refine ⟨by rw [hres], ?_, ?_, by rw [hres]⟩
  · rw [hres]
    exact regGet_regSet_self _ _ _
  · intro id hid
    rw [hres]
    exact regGet_regSet_other _ _ _ _ hid

/-- Witness for C10: three live contacts, moving the second. -/
theorem move_beyond_two_contacts_witness :
    (onPointerMove ⟨1, 9, 9, PointerType.touch⟩
        ⟨[(0, ⟨0, 0⟩), (1, ⟨1, 1⟩), (2, ⟨2, 2⟩)], true,
          none, none, none, none, ⟨0, 0⟩⟩).2 = [] ∧
    regGet (onPointerMove ⟨1, 9, 9, PointerType.touch⟩
        ⟨[(0, ⟨0, 0⟩), (1, ⟨1, 1⟩), (2, ⟨2, 2⟩)], true,
          none, none, none, none, ⟨0, 0⟩⟩).1.pointers 1 = some ⟨9, 9⟩ := by
  have h := move_beyond_two_contacts ⟨1, 9, 9, PointerType.touch⟩
    ⟨[(0, ⟨0, 0⟩), (1, ⟨1, 1⟩), (2, ⟨2, 2⟩)], true, none, none, none, none, ⟨0, 0⟩⟩
    (by norm_num) (by simp [regHas])
  exact ⟨h.2.2.2, h.2.1⟩

theorem computeMetrics_option_pair (pts : List Point) :
    (computeMetrics pts).distance.isSome = (computeMetrics pts).angleRad.isSome := by
  match pts with
  | [] => rfl
  | [p] => rfl
  | a :: b :: t => rfl

/-- C4: when a contact ends or cancels and one or two contacts remain
live, the handler emits exactly two snapshots — the `end`/`cancel` one and
a synthetic `start` whose `translation` and `delta` are both `(0,0)` — and
re-anchors the session (anchor center/distance/angle, last center and
stored translation) to the post-removal geometry. -/
theorem endLike_rebase_spec (ph : Phase) (e : PointerEvent) (s : GestureState)
    (htr : regHas s.pointers e.pointerId = true)
    (hrem : (regDelete s.pointers e.pointerId).length = 1 ∨
            (regDelete s.pointers e.pointerId).length = 2) :
    ∃ a b : Snapshot,
      (endLike ph e s).2 = [a, b] ∧
      a.phase = ph ∧
      b.phase = .start ∧
      b.translation = ⟨0, 0⟩ ∧
      b.delta = ⟨0, 0⟩ ∧
      (endLike ph e s).1.gestureStartCenter =
        some (computeMetrics (activePoints (regDelete s.pointers e.pointerId))).center ∧
      (endLike ph e s).1.gestureStartDistance =
        (computeMetrics (activePoints (regDelete s.pointers e.pointerId))).distance ∧
      (endLike ph e s).1.gestureStartAngleRad =
        (computeMetrics (activePoints (regDelete s.pointers e.pointerId))).angleRad ∧
      (endLike ph e s).1.lastCenter =
        some (computeMetrics (activePoints (regDelete s.pointers e.pointerId))).center ∧
      (endLike ph e s).1.translation = ⟨0, 0⟩ := by
  have hpos : 0 < (activePoints (regDelete s.pointers e.pointerId)).length := by
    simp only [activePoints, List.length_map]
    rcases hrem with h | h <;> omega
  have hres : endLike ph e s =
      (let d := regDelete s.pointers e.pointerId
       let m := computeMetrics (activePoints d)
       let s1 : GestureState := { s with pointers := d }
       let s2 : GestureState :=
         { (emit ph m s1).1 with
             gestureStartCenter := some ⟨m.center.x, m.center.y⟩
             lastCenter := some ⟨m.center.x, m.center.y⟩
             translation := ⟨0, 0⟩
             gestureStartDistance := m.distance
             gestureStartAngleRad := m.angleRad }
       ((emit .start m s2).1, [(emit ph m s1).2, (emit .start m s2).2])) := by
    simp only [endLike, htr, Bool.not_true, Bool.false_eq_true, if_false,
      if_pos hpos, emit_fst_pointers]
    rw [if_pos hrem]
  rw [hres]
  simp only []
  refine ⟨_, _, rfl, rfl, rfl, ?_, ?_, ?_, ?_, ?_, ?_, ?_⟩
  · simp [emit]
  · simp [emit]
  · simp [emit]
  · cases hmd : (computeMetrics (activePoints (regDelete s.pointers e.pointerId))).distance
      <;> simp [emit, hmd]
  · have hpair := computeMetrics_option_pair (activePoints (regDelete s.pointers e.pointerId))
    cases hmd : (computeMetrics (activePoints (regDelete s.pointers e.pointerId))).distance
      <;> cases hma : (computeMetrics (activePoints (regDelete s.pointers e.pointerId))).angleRad
      <;> rw [hmd, hma] at hpair <;> simp_all [emit]
  · simp [emit]
  · simp [emit]

/-- Witness for C4: releasing one of two live contacts. -/
theorem endLike_rebase_spec_witness :
    (endLike Phase.end_ ⟨0, 0, 0, PointerType.touch⟩
        ⟨[(0, ⟨0, 0⟩), (1, ⟨4, 0⟩)], true, none, none, none, none, ⟨0, 0⟩⟩).1.translation
      = ⟨0, 0⟩ := by
  obtain ⟨a, b, -, -, -, -, -, -, -, -, -, h⟩ :=
    endLike_rebase_spec Phase.end_ ⟨0, 0, 0, PointerType.touch⟩
      ⟨[(0, ⟨0, 0⟩), (1, ⟨4, 0⟩)], true, none, none, none, none, ⟨0, 0⟩⟩
      rfl (Or.inl rfl)
  exact h

/-- C7 counterexample: with one live touch contact, a contact-begin whose
modality is outside the allow-list still emits a snapshot (the handler
falls through to the re-anchor branch), contradicting the claim that such
a notification causes no snapshot emission. -/
theorem ignored_modality_down_emits :
    (step (Event.down ⟨5, 9, 9, PointerType.other⟩)
        (runEvents [Event.down ⟨0, 4, 2, PointerType.touch⟩]).1).2 ≠ [] := by
  simp [runEvents, processFrom, step, onPointerDown, initState, resetGestureState,
    regSet, activePoints, computeMetrics, emit, atan2]

/-- C7 (amended): a contact-begin notification with a non-allow-listed
modality never enters the registry; however, it is not ignored entirely:
the session is left active, and a snapshot is emitted exactly when one or
two contacts are already live (re-anchoring the session). -/
theorem ignored_modality_down_spec (e : PointerEvent) (s : GestureState)
    (hty : e.pointerType = PointerType.other) :
    (onPointerDown e s).1.pointers = s.pointers ∧
    (onPointerDown e s).1.active = true ∧
    ((onPointerDown e s).2 = [] ↔ ¬(s.pointers.length = 1 ∨ s.pointers.length = 2)) := by
  simp only [onPointerDown, hty]
  refine ⟨?_, ?_, ?_⟩ <;>
    split_ifs <;>
    simp_all [emit_fst_pointers, emit_fst_active, resetGestureState]

/-- Witness for C7 (amended) at a concrete event and empty state. -/
theorem ignored_modality_down_spec_witness :
    (onPointerDown ⟨5, 9, 9, PointerType.other⟩ initState).1.pointers = [] ∧
    (onPointerDown ⟨5, 9, 9, PointerType.other⟩ initState).2 = [] := by
  have h := ignored_modality_down_spec ⟨5, 9, 9, PointerType.other⟩ initState rfl
  refine ⟨h.1, h.2.2.mpr ?_⟩
  simp [initState]

/-- C8: the detach closure removes the registered listeners, clears the
registry and resets the session to the fresh (Idle) state; it is a total
function (never throws), calling it again is a no-op, and after the first
call no handler receives a snapshot no matter what notification sequence
is subsequently delivered. -/
theorem detach_spec (a : Attachment) (evs : List Event) :
    detachFn (detachFn a) = detachFn a ∧
    (detachFn a).attached = false ∧
    (detachFn a).state = initState ∧
    (deliverAll (detachFn a) evs).2 = [] ∧
    (deliverAll (detachFn a) evs).1 = detachFn a := by
  refine ⟨rfl, rfl, rfl, ?_, ?_⟩ <;>
  · induction evs with
    | nil => rfl
    | cons e es ih => simpa [deliverAll, deliver, detachFn] using ih

theorem eventsFor_cons (i j : Bool) (e : Event) (tr : List (Bool × Event)) :
    eventsFor i ((j, e) :: tr) =
      if j = i then e :: eventsFor i tr else eventsFor i tr := by
  by_cases h : j = i <;> simp [eventsFor, h]

theorem outFor_cons (i j : Bool) (sn : Snapshot) (out : List (Bool × Snapshot)) :
    outFor i ((j, sn) :: out) =
      if j = i then sn :: outFor i out else outFor i out := by
  by_cases h : j = i <;> simp [outFor, h]

theorem outFor_append (i : Bool) (l1 l2 : List (Bool × Snapshot)) :
    outFor i (l1 ++ l2) = outFor i l1 ++ outFor i l2 := by
  simp [outFor, List.filterMap_append]

theorem outFor_map_tag (i : Bool) (l : List Snapshot) :
    outFor i (l.map (fun sn => (i, sn))) = l := by
  induction l with
  | nil => rfl
  | cons x xs ih => rw [List.map_cons, outFor_cons]; simp [ih]

theorem outFor_map_tag_ne (i j : Bool) (hne : j ≠ i) (l : List Snapshot) :
    outFor i (l.map (fun sn => (j, sn))) = [] := by
  induction l with
  | nil => rfl
  | cons x xs ih => rw [List.map_cons, outFor_cons, if_neg hne]; exact ih

theorem runWorld_proj (tr : List (Bool × Event)) :
    ∀ w : GestureState × GestureState,
      (runWorld w tr).1.1 = (processFrom w.1 (eventsFor false tr)).1 ∧
      (runWorld w tr).1.2 = (processFrom w.2 (eventsFor true tr)).1 ∧
      outFor false (runWorld w tr).2 = (processFrom w.1 (eventsFor false tr)).2 ∧
      outFor true (runWorld w tr).2 = (processFrom w.2 (eventsFor true tr)).2 := by
  induction tr with
  | nil => intro w; exact ⟨rfl, rfl, rfl, rfl⟩
  | cons te tr ih =>
      intro w
      obtain ⟨i, e⟩ := te
      cases i
      · have h := ih ((step e w.1).1, w.2)
        refine ⟨?_, ?_, ?_, ?_⟩
        · simpa [runWorld, stepWorld, eventsFor_cons, processFrom] using h.1
        · simpa [runWorld, stepWorld, eventsFor_cons, processFrom] using h.2.1
        · simp only [runWorld, stepWorld, eventsFor_cons, processFrom, outFor_append,
            outFor_map_tag]
          simp [h.2.2.1, eventsFor]
        · simp only [runWorld, stepWorld, eventsFor_cons, processFrom, outFor_append]
          rw [outFor_map_tag_ne true false (by simp)]
          simp [h.2.2.2, eventsFor]
      · have h := ih (w.1, (step e w.2).1)
        refine ⟨?_, ?_, ?_, ?_⟩
        · simpa [runWorld, stepWorld, eventsFor_cons, processFrom] using h.1
        · simpa [runWorld, stepWorld, eventsFor_cons, processFrom] using h.2.1
        · simp only [runWorld, stepWorld, eventsFor_cons, processFrom, outFor_append]
          rw [outFor_map_tag_ne false true (by simp)]
          simp [h.2.2.1, eventsFor]
        · simp only [runWorld, stepWorld, eventsFor_cons, processFrom, outFor_append,
            outFor_map_tag]
          simp [h.2.2.2, eventsFor]

/-- C9: replaying notifications through two independently attached
recognizer instances shares no state: each instance's snapshot output over
any interleaved addressed trace is exactly the output of a lone fresh
recognizer over that instance's own sub-sequence; in particular identical
sub-sequences produce identical snapshot sequences. -/
theorem instances_independent (tr : List (Bool × Event)) :
    outFor false (runWorld (initState, initState) tr).2 =
      (runEvents (eventsFor false tr)).2 ∧
    outFor true (runWorld (initState, initState) tr).2 =
      (runEvents (eventsFor true tr)).2 ∧
    (eventsFor false tr = eventsFor true tr →
      outFor false (runWorld (initState, initState) tr).2 =
        outFor true (runWorld (initState, initState) tr).2) := by
  have h := runWorld_proj tr (initState, initState)
  refine ⟨h.2.2.1, h.2.2.2, ?_⟩
  intro heq
  rw [h.2.2.1, h.2.2.2, heq]

/-- Witness for C9: the same one-contact sequence delivered to both
instances. -/
theorem instances_independent_witness :
    eventsFor false
        [(false, Event.down ⟨0, 1, 2, PointerType.touch⟩),
         (true, Event.down ⟨0, 1, 2, PointerType.touch⟩)] =
      eventsFor true
        [(false, Event.down ⟨0, 1, 2, PointerType.touch⟩),
         (true, Event.down ⟨0, 1, 2, PointerType.touch⟩)] ∧
    outFor false (runWorld (initState, initState)
        [(false, Event.down ⟨0, 1, 2, PointerType.touch⟩),
         (true, Event.down ⟨0, 1, 2, PointerType.touch⟩)]).2 =
      outFor true (runWorld (initState, initState)
        [(false, Event.down ⟨0, 1, 2, PointerType.touch⟩),
         (true, Event.down ⟨0, 1, 2, PointerType.touch⟩)]).2 := by
  have heq : eventsFor false
        [(false, Event.down ⟨0, 1, 2, PointerType.touch⟩),
         (true, Event.down ⟨0, 1, 2, PointerType.touch⟩)] =
      eventsFor true
        [(false, Event.down ⟨0, 1, 2, PointerType.touch⟩),
         (true, Event.down ⟨0, 1, 2, PointerType.touch⟩)] := rfl
  exact ⟨heq, (instances_independent _).2.2 heq⟩

/-- C6 counterexample: invoking attach with a missing target is not a
successful no-op — no attachment (and hence no detach closure) is
returned. -/
theorem attach_missing_target_not_ok :
    ¬ ∃ r, attachPinchPanGesture none = Except.ok r := by
  simp [attachPinchPanGesture]

/-- C6 (amended): invoking attach with a missing target throws a
`TypeError` when the function touches `target.style`, instead of being a
no-op that returns an inert detach function. -/
theorem attach_missing_target_throws :
    attachPinchPanGesture none = Except.error "TypeError" := rfl

/-! ## Concrete geometry evaluations for the worked examples -/

theorem metrics_single_00 :
    computeMetrics [(⟨0, 0⟩ : Point)] = { center := ⟨0, 0⟩ } := rfl

theorem metrics_100_0 :
    computeMetrics [(⟨0, 0⟩ : Point), ⟨100, 0⟩] =
      { center := ⟨50, 0⟩, distance := some 100, angleRad := some 0 } := by
  have hs : Real.sqrt (((100:ℝ) - 0) ^ 2 + ((0:ℝ) - 0) ^ 2) = 100 := by
    rw [show ((100:ℝ) - 0) ^ 2 + ((0:ℝ) - 0) ^ 2 = 100 ^ 2 by norm_num]
    exact Real.sqrt_sq (by norm_num)
  have ha : atan2 ((0:ℝ) - 0) ((100:ℝ) - 0) = 0 := by
    show Complex.arg ⟨(100:ℝ) - 0, (0:ℝ) - 0⟩ = 0
    rw [Complex.arg_eq_zero_iff]
    constructor <;> norm_num
  simp only [computeMetrics, hs, ha]
  norm_num

theorem metrics_200_0 :
    computeMetrics [(⟨0, 0⟩ : Point), ⟨200, 0⟩] =
      { center := ⟨100, 0⟩, distance := some 200, angleRad := some 0 } := by
  have hs : Real.sqrt (((200:ℝ) - 0) ^ 2 + ((0:ℝ) - 0) ^ 2) = 200 := by
    rw [show ((200:ℝ) - 0) ^ 2 + ((0:ℝ) - 0) ^ 2 = 200 ^ 2 by norm_num]
    exact Real.sqrt_sq (by norm_num)
  have ha : atan2 ((0:ℝ) - 0) ((200:ℝ) - 0) = 0 := by
    show Complex.arg ⟨(200:ℝ) - 0, (0:ℝ) - 0⟩ = 0
    rw [Complex.arg_eq_zero_iff]
    constructor <;> norm_num
  simp only [computeMetrics, hs, ha]
  norm_num

theorem metrics_0_100 :
    computeMetrics [(⟨0, 0⟩ : Point), ⟨0, 100⟩] =
      { center := ⟨0, 50⟩, distance := some 100, angleRad := some (Real.pi / 2) } := by
  have hs : Real.sqrt (((0:ℝ) - 0) ^ 2 + ((100:ℝ) - 0) ^ 2) = 100 := by
    rw [show ((0:ℝ) - 0) ^ 2 + ((100:ℝ) - 0) ^ 2 = 100 ^ 2 by norm_num]
    exact Real.sqrt_sq (by norm_num)
  have ha : atan2 ((100:ℝ) - 0) ((0:ℝ) - 0) = Real.pi / 2 := by
    show Complex.arg ⟨(0:ℝ) - 0, (100:ℝ) - 0⟩ = Real.pi / 2
    rw [Complex.arg_eq_pi_div_two_iff]
    constructor <;> norm_num
  simp only [computeMetrics, hs, ha]
  norm_num

/-! ## The worked two-contact run (A = (0,0), B = (100,0)) -/

theorem run_step1 :
    step (Event.down ⟨0, 0, 0, PointerType.touch⟩) initState =
      (⟨[(0, ⟨0, 0⟩)], true, some ⟨0, 0⟩, none, none, some ⟨0, 0⟩, ⟨0, 0⟩⟩,
       [⟨Phase.start, 1, ⟨0, 0⟩, ⟨0, 0⟩, ⟨0, 0⟩, none, 1, 0⟩]) := by
  norm_num [step, onPointerDown, initState, resetGestureState, regSet, activePoints,
    emit, clampPointersCount, metrics_single_00]

theorem run_step2 :
    step (Event.down ⟨1, 100, 0, PointerType.touch⟩)
        ⟨[(0, ⟨0, 0⟩)], true, some ⟨0, 0⟩, none, none, some ⟨0, 0⟩, ⟨0, 0⟩⟩ =
      (⟨[(0, ⟨0, 0⟩), (1, ⟨100, 0⟩)], true, some ⟨50, 0⟩, some 100, some 0,
          some ⟨50, 0⟩, ⟨0, 0⟩⟩,
       [⟨Phase.start, 2, ⟨50, 0⟩, ⟨0, 0⟩, ⟨0, 0⟩, some 100, 1, 0⟩]) := by
  norm_num [step, onPointerDown, regSet, activePoints, emit, clampPointersCount,
    metrics_100_0]

theorem run_step3 :
    step (Event.move ⟨1, 200, 0, PointerType.touch⟩)
        ⟨[(0, ⟨0, 0⟩), (1, ⟨100, 0⟩)], true, some ⟨50, 0⟩, some 100, some 0,
          some ⟨50, 0⟩, ⟨0, 0⟩⟩ =
      (⟨[(0, ⟨0, 0⟩), (1, ⟨200, 0⟩)], true, some ⟨50, 0⟩, some 100, some 0,
          some ⟨100, 0⟩, ⟨50, 0⟩⟩,
       [⟨Phase.move, 2, ⟨100, 0⟩, ⟨50, 0⟩, ⟨50, 0⟩, some 200, 2, 0⟩]) := by
  norm_num [step, onPointerMove, regHas, regSet, activePoints, emit, clampPointersCount,
    metrics_200_0]

theorem run_step3_rot :
    step (Event.move ⟨1, 0, 100, PointerType.touch⟩)
        ⟨[(0, ⟨0, 0⟩), (1, ⟨100, 0⟩)], true, some ⟨50, 0⟩, some 100, some 0,
          some ⟨50, 0⟩, ⟨0, 0⟩⟩ =
      (⟨[(0, ⟨0, 0⟩), (1, ⟨0, 100⟩)], true, some ⟨50, 0⟩, some 100, some 0,
          some ⟨0, 50⟩, ⟨-50, 50⟩⟩,
       [⟨Phase.move, 2, ⟨0, 50⟩, ⟨-50, 50⟩, ⟨-50, 50⟩, some 100, 1, Real.pi / 2⟩]) := by
  norm_num [step, onPointerMove, regHas, regSet, activePoints, emit, clampPointersCount,
    metrics_0_100]

/-- C3: on every emission the snapshot's `scale` equals the current
pairwise distance divided by the session's anchor distance (the value in
effect after the lazy capture) whenever the current distance is defined
and the anchor is defined and nonzero, and equals `1` otherwise — in
particular a zero anchor distance (two contacts beginning at an identical
point) yields `1` and never a division by zero; moreover, in the worked
run (contacts anchored at A=(0,0) and B=(100,0), B moved to (200,0)) the
`move` snapshot reports distance `200` and scale `2`.  The nonnegativity
hypotheses hold of every reachable state and metrics, because every
stored or reported distance is a square root. -/
theorem emit_scale_spec (ph : Phase) (m : Metrics) (s : GestureState)
    (hnn : ∀ g : ℝ, s.gestureStartDistance = some g → 0 ≤ g)
    (hmn : ∀ d : ℝ, m.distance = some d → 0 ≤ d) :
    ((∀ d : ℝ, m.distance = some d →
        ((emit ph m s).1.gestureStartDistance).isSome = true) ∧
     (∀ d g : ℝ, m.distance = some d →
        (emit ph m s).1.gestureStartDistance = some g → g ≠ 0 →
        (emit ph m s).2.scale = d / g) ∧
     (m.distance = none → (emit ph m s).2.scale = 1) ∧
     ((emit ph m s).1.gestureStartDistance = some 0 → (emit ph m s).2.scale = 1)) ∧
    (runEvents [Event.down ⟨0, 0, 0, PointerType.touch⟩,
        Event.down ⟨1, 100, 0, PointerType.touch⟩,
        Event.move ⟨1, 200, 0, PointerType.touch⟩]).2.map
        (fun sn => (sn.phase, sn.pinchDistance, sn.scale)) =
      [(Phase.start, none, 1), (Phase.start, some 100, 1),
       (Phase.move, some 200, 2)] := by
  constructor
  · refine ⟨?_, ?_, ?_, ?_⟩
    · intro d hd
      cases hsd : s.gestureStartDistance <;> simp [emit, hd, hsd]
    · intro d g hd hg hgne
      cases hsd : s.gestureStartDistance with
      | none =>
          simp only [emit, hd, hsd] at hg
          simp at hg
          subst hg
          have hpos : 0 < d := lt_of_le_of_ne (hmn d hd) (Ne.symm hgne)
          simp [emit, hd, hsd, hpos, hpos.ne']
      | some g0 =>
          simp only [emit, hd, hsd] at hg
          simp at hg
          subst hg
          have hpos : 0 < g0 := lt_of_le_of_ne (hnn g0 hsd) (Ne.symm hgne)
          simp [emit, hd, hsd, hpos, hpos.ne']
    · intro hd
      simp [emit, hd]
    · intro hg
      cases hmd : m.distance with
      | none => simp [emit, hmd]
      | some d =>
          cases hsd : s.gestureStartDistance with
          | none =>
              simp only [emit, hmd, hsd] at hg
              simp at hg
              simp [emit, hmd, hsd, hg]
          | some g0 =>
              simp only [emit, hmd, hsd] at hg
              simp at hg
              simp [emit, hmd, hsd, hg]
  · simp [runEvents, processFrom, run_step1, run_step2, run_step3]

/-- Witness for C3 at a concrete metrics/state pair (current distance 8,
anchor distance 4). -/
theorem emit_scale_spec_witness :
    (emit Phase.move ⟨⟨0, 0⟩, some 8, some 0⟩
        ⟨[], false, none, some 4, none, none, ⟨0, 0⟩⟩).2.scale = 8 / 4 := by
  have h := emit_scale_spec Phase.move ⟨⟨0, 0⟩, some 8, some 0⟩
      ⟨[], false, none, some 4, none, none, ⟨0, 0⟩⟩
      (by rintro g hg; simp only [Option.some.injEq] at hg; rw [← hg]; norm_num)
      (by rintro d hd; simp only [Option.some.injEq] at hd; rw [← hd]; norm_num)
  exact h.1.2.1 8 4 rfl (by simp [emit]) (by norm_num)

/-- C5: on every emission the snapshot's `rotationRad` is the raw
difference between the current bearing angle and the session's anchor
angle (the value in effect after the lazy capture) whenever both are
defined, and `0` otherwise; the difference is not normalized across the
`±π` boundary.  In the worked run (A fixed at (0,0), B moved from (100,0)
to (0,100); anchor angle 0) the `move` snapshot's rotation is exactly
`π/2`.  The hypothesis that the metrics defines a distance exactly when it
defines an angle holds of every metrics the handlers build. -/
theorem emit_rotation_spec (ph : Phase) (m : Metrics) (s : GestureState)
    (hlink : m.distance.isSome = m.angleRad.isSome) :
    ((∀ a : ℝ, m.angleRad = some a →
        ((emit ph m s).1.gestureStartAngleRad).isSome = true) ∧
     (∀ a g : ℝ, m.angleRad = some a →
        (emit ph m s).1.gestureStartAngleRad = some g →
        (emit ph m s).2.rotationRad = a - g) ∧
     (m.angleRad = none → (emit ph m s).2.rotationRad = 0)) ∧
    (runEvents [Event.down ⟨0, 0, 0, PointerType.touch⟩,
        Event.down ⟨1, 100, 0, PointerType.touch⟩,
        Event.move ⟨1, 0, 100, PointerType.touch⟩]).2.map
        (fun sn => (sn.phase, sn.rotationRad)) =
      [(Phase.start, 0), (Phase.start, 0), (Phase.move, Real.pi / 2)] := by
  constructor
  · refine ⟨?_, ?_, ?_⟩
    · intro a hma
      have hds : m.distance.isSome = true := by rw [hlink, hma]; rfl
      obtain ⟨d, hd⟩ := Option.isSome_iff_exists.mp hds
      cases hsa : s.gestureStartAngleRad <;> simp [emit, hd, hma, hsa]
    · intro a g hma hg
      have hds : m.distance.isSome = true := by rw [hlink, hma]; rfl
      obtain ⟨d, hd⟩ := Option.isSome_iff_exists.mp hds
      cases hsa : s.gestureStartAngleRad with
      | none =>
          simp only [emit, hd, hma, hsa] at hg
          simp at hg
          simp [emit, hd, hma, hsa, hg]
      | some g0 =>
          simp only [emit, hd, hma, hsa] at hg
          simp at hg
          simp [emit, hd, hma, hsa, hg]
    · intro hma
      cases hsd : m.distance <;> cases hsa : s.gestureStartAngleRad <;>
        simp [emit, hma, hsd, hsa]
  · simp [runEvents, processFrom, run_step1, run_step2, run_step3_rot]

/-- Witness for C5 at a concrete metrics/state pair (current angle 2,
anchor angle 1). -/
theorem emit_rotation_spec_witness :
    (emit Phase.move ⟨⟨0, 0⟩, some 5, some 2⟩
        ⟨[], false, none, none, some 1, none, ⟨0, 0⟩⟩).2.rotationRad = 2 - 1 := by
  have h := emit_rotation_spec Phase.move ⟨⟨0, 0⟩, some 5, some 2⟩
      ⟨[], false, none, none, some 1, none, ⟨0, 0⟩⟩ rfl
  exact h.1.2.1 2 1 rfl (by simp [emit])
